import Mathlib

/-!
Shallow embedding of the azuretls-api server core: the session registry
(`DefaultSessionManager`), the session controller (execution adapter), the
WebSocket connection object and request-message handler, the REST
concurrency limiter, and the protocol / body-parsing layer, together with
theorems settling the specification claims about them.

The execution engine (azuretls-client) is external to the repository; its
observable behavior is abstracted into the `Engine` structure, and
engine-produced values (sessions, responses, cookies) are modelled by
structures carrying exactly the fields the server reads or writes.
-/

namespace AzureApi

/-- Engine-level session handle (azuretls.Session), restricted to the fields
the server reads or writes.  `azuretls.NewSession()` yields the default
value. -/
structure EngineSession where
  browser : String := ""
  userAgent : String := ""
  proxy : String := ""
  timeoutMs : Int := 0
  maxRedirects : Nat := 0
  insecureSkipVerify : Bool := false
  orderedHeaders : List (List String) := []
  headers : List (String × String) := []
  deriving Repr, DecidableEq

/-- common.SessionConfig. -/
structure SessionConfig where
  browser : String := ""
  userAgent : String := ""
  proxy : String := ""
  timeoutMs : Int := 0
  maxRedirects : Nat := 0
  insecureSkipVerify : Bool := false
  orderedHeaders : List (List String) := []
  headers : List (String × String) := []
  deriving Repr, DecidableEq

/-- common.RequestOptions. -/
structure RequestOptions where
  timeoutMs : Int := 0
  followRedirects : Bool := false
  disableRedirects : Bool := false
  maxRedirects : Nat := 0
  proxy : String := ""
  noCookie : Bool := false
  browser : String := ""
  forceHTTP1 : Bool := false
  forceHTTP3 : Bool := false
  insecureSkipVerify : Bool := false
  ignoreBody : Bool := false
  deriving Repr, DecidableEq

/-- A header value held in the `any`-typed values of common.OrderedMap: the
Go code switches on string, []string, and a default case for anything
else (including an absent key, which yields a nil interface). -/
inductive HVal
  | str (v : String)
  | strs (vs : List String)
  | other
  deriving Repr, DecidableEq

/-- common.OrderedMap: JSON object keys in arrival order plus a keyed value
map. -/
structure OrderedMap where
  keys : List String := []
  values : List (String × HVal) := []
  deriving Repr, DecidableEq

/-- internal common.ServerRequest.  `body` is the text body (string, empty
means unset); `bodyB64` is the decoded binary body ([]byte, `none` = nil). -/
structure ServerRequest where
  id : String := ""
  method : String := ""
  url : String := ""
  headers : OrderedMap := {}
  orderedHeaders : List (List String) := []
  body : String := ""
  bodyB64 : Option (List Nat) := none
  options : RequestOptions := {}
  deriving Repr, DecidableEq

/-- Normalized API cookie (common.Cookie).  `expires` models the time.Time
as an integer timestamp. -/
structure Cookie where
  name : String := ""
  value : String := ""
  domain : String := ""
  path : String := ""
  expires : Int := 0
  secure : Bool := false
  httpOnly : Bool := false
  sameSite : String := ""
  deriving Repr, DecidableEq

/-- internal common.ServerResponse. -/
structure ServerResponse where
  id : String := ""
  statusCode : Int := 0
  status : String := ""
  headers : List (String × List String) := []
  body : String := ""
  bodyB64 : String := ""
  cookies : List Cookie := []
  error : String := ""
  url : String := ""
  deriving Repr, DecidableEq

/-- The `any`-typed Body field of azuretls.Request after the controller has
filled it: either the text body or the decoded base64 bytes. -/
inductive GoBody
  | str (s : String)
  | bytes (b : List Nat)
  deriving Repr, DecidableEq

/-- azuretls.Request restricted to the fields the controller sets. -/
structure AzureRequest where
  method : String := ""
  url : String := ""
  body : GoBody := .str ""
  orderedHeaders : List (List String) := []
  header : List (String × List String) := []
  timeoutMs : Int := 0
  forceHTTP1 : Bool := false
  forceHTTP3 : Bool := false
  insecureSkipVerify : Bool := false
  noCookie : Bool := false
  ignoreBody : Bool := false
  disableRedirects : Bool := false
  maxRedirects : Nat := 0
  deriving Repr, DecidableEq

/-- An engine-level response cookie (net/http.Cookie as produced by
resp.HttpResponse.Cookies()).  `sameSite` is the numeric http.SameSite
code of Go, an int. -/
structure EngineCookie where
  name : String := ""
  value : String := ""
  domain : String := ""
  path : String := ""
  expires : Int := 0
  secure : Bool := false
  httpOnly : Bool := false
  sameSite : Int := 0
  deriving Repr, DecidableEq

/-- azuretls.Response restricted to the fields the controller reads.  The
source reads both resp.Cookies (for the length test) and
resp.HttpResponse.Cookies() (for the normalization loop); both are derived
by the engine from the same Set-Cookie headers and are modelled as the one
list `cookies`.  `header = none` models a nil response header map and
`rbody = none` a nil body slice. -/
structure AzureResponse where
  statusCode : Int := 0
  status : String := ""
  url : String := ""
  rbody : Option (List Nat) := none
  header : Option (List (String × List String)) := none
  cookies : List EngineCookie := []
  deriving Repr, DecidableEq

/-- Behavior of the external execution engine (azuretls-client) plus the
content sniffing helper: `setProxy` may fail on a malformed proxy URL,
`doRequest` performs the HTTP transaction (session.Do), and
`isBinaryContent` is common.IsBinaryContent deciding whether the response
body is binary. -/
structure Engine where
  setProxy : EngineSession → String → Except String EngineSession
  doRequest : EngineSession → AzureRequest → Except String AzureResponse
  isBinaryContent : List (String × List String) → List Nat → Bool

/-- A trivial engine instance used to evaluate witnesses on concrete
inputs: setProxy always succeeds, doRequest returns an empty response. -/
def idEngine : Engine where
  setProxy := fun s p => .ok { s with proxy := p }
  doRequest := fun _ _ => .ok {}
  isBinaryContent := fun _ _ => false

/-- The session registry map (DefaultSessionManager.sessions), modelled as
an association list with unique keys. -/
abbrev SessionMap := List (String × EngineSession)

/-- Go map lookup on the registry. -/
def findSession : SessionMap → String → Option EngineSession
  | [], _ => none
  | (k, s) :: rest, id => if k = id then some s else findSession rest id

/-- Go `delete(sm.sessions, id)`. -/
def eraseSession (sm : SessionMap) (id : String) : SessionMap :=
  sm.filter (fun p => decide (p.1 ≠ id))

/-- DefaultSessionManager.CreateSession.  `gen` stands for the value
common.GenerateSessionID() returns when the supplied ID is empty. -/
def createSession (gen : String) (sm : SessionMap) (sessionID : String) :
    Except String EngineSession × SessionMap :=
  let sid := if sessionID = "" then gen else sessionID
  match findSession sm sid with
  | some _ => (.error ("session with ID " ++ sid ++ " already exists"), sm)
  | none =>
      let s : EngineSession := {}
      (.ok s, sm ++ [(sid, s)])

/-- net/http Header.Set semantics on a header list: replace every entry
with the key, or append when absent. -/
def headerSet (hs : List (String × String)) (k v : String) : List (String × String) :=
  if hs.any (fun p => p.1 = k) then hs.map (fun p => if p.1 = k then (k, v) else p)
  else hs ++ [(k, v)]

/-- The Headers loop of CreateSessionWithConfig: session.Header.Set for
each configured pair. -/
def applyHeaders (hs : List (String × String)) (cfg : List (String × String)) :
    List (String × String) :=
  cfg.foldl (fun acc p => headerSet acc p.1 p.2) hs

/-- The configuration block of DefaultSessionManager.CreateSessionWithConfig:
each config field is applied to the freshly constructed session in source
order; a SetProxy failure aborts with the wrapped error. -/
def configureSession (eng : Engine) (s0 : EngineSession) (config : SessionConfig) :
    Except String EngineSession :=
  let s1 := if config.browser ≠ "" then { s0 with browser := config.browser } else s0
  let s2 := if config.userAgent ≠ "" then { s1 with userAgent := config.userAgent } else s1
  match (if config.proxy ≠ "" then
          match eng.setProxy s2 config.proxy with
          | .error e => .error ("failed to set proxy: " ++ e)
          | .ok s => .ok s
        else .ok s2 : Except String EngineSession) with
  | .error e => .error e
  | .ok s3 =>
      let s4 := if config.timeoutMs > 0 then { s3 with timeoutMs := config.timeoutMs } else s3
      let s5 := if config.maxRedirects > 0 then { s4 with maxRedirects := config.maxRedirects } else s4
      let s6 := { s5 with insecureSkipVerify := config.insecureSkipVerify }
      let s7 := if config.orderedHeaders.length > 0 then { s6 with orderedHeaders := config.orderedHeaders } else s6
      let s8 := if config.headers.length > 0 then { s7 with headers := applyHeaders s7.headers config.headers } else s7
      .ok s8

/-- DefaultSessionManager.CreateSessionWithConfig. -/
def createSessionWithConfig (eng : Engine) (gen : String) (sm : SessionMap)
    (sessionID : String) (config : Option SessionConfig) :
    Except String EngineSession × SessionMap :=
  let sid := if sessionID = "" then gen else sessionID
  match findSession sm sid with
  | some _ => (.error ("session with ID " ++ sid ++ " already exists"), sm)
  | none =>
      match config with
      | none => (.ok {}, sm ++ [(sid, ({} : EngineSession))])
      | some cfg =>
          match configureSession eng {} cfg with
          | .error e => (.error e, sm)
          | .ok s => (.ok s, sm ++ [(sid, s)])

/-- DefaultSessionManager.DeleteSession: closes the engine session and
removes the entry, or fails when the ID is unknown.  The first component is
the returned error (`none` = nil). -/
def deleteSession (sm : SessionMap) (sessionID : String) : Option String × SessionMap :=
  match findSession sm sessionID with
  | none => (some ("session with ID " ++ sessionID ++ " not found"), sm)
  | some _ => (none, eraseSession sm sessionID)

/-- SessionController.GetSession. -/
def getSession (sm : SessionMap) (sessionID : String) : Except String EngineSession :=
  if sessionID = "" then .error "session ID required"
  else
    match findSession sm sessionID with
    | none => .error "session not found"
    | some s => .ok s

/-- The cookie normalization step of executeRequestWithSession: field
copies plus the Go switch on cookie.SameSite (cases 1..4; the default
leaves the zero value, the empty string). -/
def normalizeCookie (c : EngineCookie) : Cookie :=
  let base : Cookie :=
    { name := c.name, value := c.value, domain := c.domain,
      path := c.path, expires := c.expires, secure := c.secure, httpOnly := c.httpOnly }
  match c.sameSite with
  | 1 => { base with sameSite := "Default" }
  | 2 => { base with sameSite := "Lax" }
  | 3 => { base with sameSite := "Strict" }
  | 4 => { base with sameSite := "None" }
  | _ => base

/-- Go map store azureReq.Header[key] = vs: overwrite or append. -/
def headerMapSet (hs : List (String × List String)) (k : String) (vs : List String) :
    List (String × List String) :=
  if hs.any (fun p => p.1 = k) then hs.map (fun p => if p.1 = k then (k, vs) else p)
  else hs ++ [(k, vs)]

/-- Value lookup in an OrderedMap (Go map access, nil on absence). -/
def findHVal : List (String × HVal) → String → Option HVal
  | [], _ => none
  | (k, v) :: rest, key => if k = key then some v else findHVal rest key

/-- One iteration of the OrderedMap header loop in
executeRequestWithSession: skip the literal keys "Keys" and "Values",
accept string and []string values, and fail on any other dynamic type
(including a nil value for an absent key).  The Go error text also names
the dynamic type, which has no counterpart here. -/
def addHeaderKey (values : List (String × HVal)) (acc : List (String × List String))
    (key : String) : Except String (List (String × List String)) :=
  if key = "Keys" ∨ key = "Values" then .ok acc
  else
    match findHVal values key with
    | some (.str v) => .ok (headerMapSet acc key [v])
    | some (.strs vs) => .ok (headerMapSet acc key vs)
    | _ => .error ("Invalid header value type for key " ++ key)

/-- The unordered-header branch of executeRequestWithSession: fold the
OrderedMap keys in order into the azuretls header map. -/
def buildHeaderMap (om : OrderedMap) : Except String (List (String × List String)) :=
  om.keys.foldlM (fun acc k => addHeaderKey om.values acc k) []

/-- SessionController.applyRequestOptions: option fields are transcribed
onto the request, and the proxy / browser overrides mutate the session. -/
def applyRequestOptions (eng : Engine) (req0 : AzureRequest) (sess0 : EngineSession)
    (options : RequestOptions) : Except String (AzureRequest × EngineSession) :=
  let req1 := if options.timeoutMs > 0 then { req0 with timeoutMs := options.timeoutMs } else req0
  match (if options.proxy ≠ "" then
          (if sess0.proxy = "" ∨ sess0.proxy ≠ options.proxy then
            eng.setProxy sess0 options.proxy
          else .ok sess0)
        else .ok sess0 : Except String EngineSession) with
  | .error e => .error e
  | .ok sess1 =>
      let req2 :=
        { req1 with
          forceHTTP1 := options.forceHTTP1,
          forceHTTP3 := options.forceHTTP3,
          insecureSkipVerify := options.insecureSkipVerify,
          noCookie := options.noCookie, ignoreBody := options.ignoreBody,
          disableRedirects := options.disableRedirects }
      let req3 := if options.maxRedirects > 0 then { req2 with maxRedirects := options.maxRedirects } else req2
      let sess2 := if options.browser ≠ "" then
          (if sess1.browser ≠ options.browser then { sess1 with browser := options.browser } else sess1)
        else sess1
      .ok (req3, sess2)

/-- Standard base64 alphabet. -/
def base64Table : List Char :=
  "ABCDEFGHIJKLMNOPQRSTUVWXYZabcdefghijklmnopqrstuvwxyz0123456789+/".toList

/-- One base64 output character. -/
def base64Chr (n : Nat) : Char := base64Table.getD n '='

/-- encoding/base64 StdEncoding.EncodeToString over byte values. -/
def base64Encode : List Nat → String
  | [] => ""
  | [a] =>
      String.mk [base64Chr (a % 256 / 4), base64Chr (a % 4 * 16), '=', '=']
  | [a, b] =>
      String.mk [base64Chr (a % 256 / 4), base64Chr (a % 4 * 16 + b % 256 / 16),
        base64Chr (b % 16 * 4), '=']
  | a :: b :: c :: rest =>
      String.mk [base64Chr (a % 256 / 4), base64Chr (a % 4 * 16 + b % 256 / 16),
        base64Chr (b % 16 * 4 + c % 256 / 64), base64Chr (c % 64)] ++ base64Encode rest

/-- Go string(bytes): bytes reinterpreted as text (code points stand in for
the UTF-8 decoding). -/
def bytesToString (bs : List Nat) : String :=
  String.mk (bs.map (fun b => Char.ofNat b))

/-- The response-normalization tail of executeRequestWithSession, applied
to a successful engine response.  Mirrors the source order: status fields;
body (with an early return for non-binary bodies that skips headers and
cookies); headers; cookies. -/
def buildServerResponse (eng : Engine) (reqID : String) (resp : AzureResponse) :
    ServerResponse :=
  let sr0 : ServerResponse :=
    { id := reqID, statusCode := resp.statusCode,
      status := resp.status, url := resp.url }
  match resp.rbody with
  | some bs =>
      if ¬ eng.isBinaryContent (resp.header.getD []) bs then
        { sr0 with body := bytesToString bs }
      else
        let sr1 := { sr0 with bodyB64 := base64Encode bs }
        let sr2 := match resp.header with
          | some h => { sr1 with headers := h }
          | none => sr1
        if resp.cookies.length > 0 then
          { sr2 with cookies := resp.cookies.map normalizeCookie }
        else sr2
  | none =>
      let sr2 := match resp.header with
        | some h => { sr0 with headers := h }
        | none => sr0
      if resp.cookies.length > 0 then
        { sr2 with cookies := resp.cookies.map normalizeCookie }
      else sr2

/-- SessionController.executeRequestWithSession. -/
def executeRequestWithSession (eng : Engine) (session : EngineSession)
    (serverReq : ServerRequest) : ServerResponse :=
  if serverReq.body ≠ "" ∧ serverReq.bodyB64 ≠ none then
    { id := serverReq.id, error := "Both `body` and `body_b64` cannot be set" }
  else
    let azureBody : GoBody := match serverReq.bodyB64 with
      | some bs => .bytes bs
      | none => .str serverReq.body
    let azureReq : AzureRequest :=
      { method := serverReq.method, url := serverReq.url, body := azureBody }
    let withHeaders : Except String AzureRequest :=
      if serverReq.orderedHeaders.length > 0 then
        .ok { azureReq with orderedHeaders := serverReq.orderedHeaders }
      else if serverReq.headers.keys.length > 0 then
        match buildHeaderMap serverReq.headers with
        | .error e => .error e
        | .ok h => .ok { azureReq with header := h }
      else .ok azureReq
    match withHeaders with
    | .error e => { id := serverReq.id, error := e }
    | .ok req1 =>
        match applyRequestOptions eng req1 session serverReq.options with
        | .error e => { id := serverReq.id, error := "Failed to apply request options: " ++ e }
        | .ok (req2, sess2) =>
            match eng.doRequest sess2 req2 with
            | .error e => { id := serverReq.id, error := e }
            | .ok resp => buildServerResponse eng serverReq.id resp

/-- SessionController.ExecuteRequest. -/
def executeRequest (eng : Engine) (sm : SessionMap) (sessionID : String)
    (serverReq : ServerRequest) : ServerResponse :=
  match getSession sm sessionID with
  | .error e => { id := serverReq.id, error := e }
  | .ok session => executeRequestWithSession eng session serverReq

/-- SessionController.ExecuteStatelessRequest.  `tempID` stands for the
generated temporary session ID; the deferred DeleteSession runs after
execution whatever its outcome, and a creation failure short-circuits into
an error response. -/
def executeStatelessRequest (eng : Engine) (tempID : String) (sm : SessionMap)
    (serverReq : ServerRequest) : ServerResponse × SessionMap :=
  match createSession tempID sm tempID with
  | (.error e, sm1) =>
      ({ id := serverReq.id, error := "Failed to create temporary session: " ++ e }, sm1)
  | (.ok session, sm1) =>
      let resp := executeRequestWithSession eng session serverReq
      (resp, (deleteSession sm1 tempID).2)

/-- A reply written back on the WebSocket by the request-message handler:
either a response-type message (conn.SendResponse) or an error-type message
(conn.SendError), each echoing a correlation ID. -/
inductive WSReply
  | response (id : String) (resp : ServerResponse)
  | errorReply (id : String) (msg : String)
  deriving Repr, DecidableEq

/-- WSHandler.handleRequestMessage.  `connSessionID` is the session ID
bound to the connection (empty when no create_session happened);
`decoded` is the outcome of jsonEncoder.Decode on the message payload. -/
def handleRequestMessage (eng : Engine) (sm : SessionMap) (connSessionID : String)
    (msgID : String) (decoded : Except String ServerRequest) : WSReply :=
  match decoded with
  | .error e => .errorReply msgID ("Invalid request payload: " ++ e)
  | .ok sr0 =>
      let serverReq := if msgID ≠ "" then { sr0 with id := msgID } else sr0
      let serverResp := executeRequest eng sm connSessionID serverReq
      if serverResp.error ≠ "" then .errorReply msgID serverResp.error
      else .response msgID serverResp

/-- Mutable state of a WSConnection: the bound session ID, the closed flag,
whether close(c.closeChan) has run, and whether the underlying socket has
been closed. -/
structure WSConnState where
  sessionID : String := ""
  closed : Bool := false
  closeChanClosed : Bool := false
  socketClosed : Bool := false
  deriving Repr, DecidableEq

/-- WSConnection.Close.  `sockErr` is the value the underlying
conn.Close() would return (`none` = nil).  Returns the method result and
the updated state; under the mutex an already-closed connection returns nil
untouched, otherwise the flag is set, the close channel closed, and the
socket closed. -/
def closeConn (sockErr : Option String) (c : WSConnState) : Option String × WSConnState :=
  if c.closed then (none, c)
  else (sockErr, { c with closed := true, closeChanClosed := true, socketClosed := true })

/-- An operation performed on the underlying socket by the write path. -/
inductive SocketOp
  | setWriteDeadline
  | writeFrame
  deriving Repr, DecidableEq

/-- The error gorilla/websocket returns for a write after close
(websocket.ErrCloseSent). -/
def errCloseSent : String := "websocket: close sent"

/-- WSConnection.WriteJSON.  Under the mutex: a closed connection returns
ErrCloseSent without touching the socket; otherwise the write deadline is
set and the message written, `writeResult` being the value the underlying
conn.WriteJSON would return.  The second component records the socket
operations performed. -/
def writeJSON (c : WSConnState) (writeResult : Option String) :
    Option String × List SocketOp :=
  if c.closed then (some errCloseSent, [])
  else (writeResult, [.setWriteDeadline, .writeFrame])

/-- Outcome of one pass through ConcurrentRequestLimiter for one request:
the HTTP status and body written, whether the wrapped handler ran, the
number of tokens held while it ran, and the number held once the request
finished. -/
structure LimiterOutcome where
  status : Int
  body : String
  invoked : Bool
  heldDuring : Nat
  heldAfter : Nat
  deriving Repr, DecidableEq

/-- ConcurrentRequestLimiter middleware.  The buffered channel of capacity
`maxConcurrent` holds `held` tokens when the request arrives.  The
non-blocking select acquires a token and runs the wrapped handler (the
deferred receive releasing the token on every exit path), or hits the
default branch: an immediate 429 JSON error without invoking the handler
and without queueing. -/
def concurrentRequestLimiter (maxConcurrent : Nat) (held : Nat)
    (nextStatus : Int) (nextBody : String) (requestID : String) : LimiterOutcome :=
  if held < maxConcurrent then
    { status := nextStatus, body := nextBody, invoked := true,
      heldDuring := held + 1, heldAfter := held }
  else
    { status := 429,
      body := "\x7b\"error\":\"Too many concurrent requests\",\"request_id\":\"" ++ requestID ++ "\"\x7d",
      invoked := false, heldDuring := held, heldAfter := held }

/-- ASCII lowering of one character (the content types compared here are
ASCII; strings.ToLower agrees on them). -/
def asciiLower (c : Char) : Char :=
  if 65 ≤ c.toNat ∧ c.toNat ≤ 90 then Char.ofNat (c.toNat + 32) else c

/-- strings.ToLower. -/
def lowerStr (s : String) : String := String.mk (s.toList.map asciiLower)

/-- A whitespace character as trimmed by strings.TrimSpace. -/
def isSpaceChar (c : Char) : Bool := c = ' ' ∨ c = '\t' ∨ c = '\n' ∨ c = '\r'

/-- strings.TrimSpace. -/
def trimStr (s : String) : String :=
  String.mk (((s.toList.dropWhile isSpaceChar).reverse.dropWhile isSpaceChar).reverse)

/-- Whether `pre` is a prefix of the second list. -/
def isPrefixList : List Char → List Char → Bool
  | [], _ => true
  | _ :: _, [] => false
  | a :: as, b :: bs => a = b && isPrefixList as bs

/-- Whether `sub` occurs inside the second list. -/
def hasSubList (sub : List Char) : List Char → Bool
  | [] => decide (sub = [])
  | c :: rest => isPrefixList sub (c :: rest) || hasSubList sub rest

/-- strings.Contains. -/
def strContainsSub (s sub : String) : Bool := hasSubList sub.toList s.toList

/-- protocol.DetectProtocol reduced to its decision: lower-case and trim
the content type, default the empty one to application/json, and accept
exactly the content types containing "application/json"; anything else is
ErrUnsupportedMediaType. -/
def detectProtocol (contentType : String) : Except String Unit :=
  let ct := lowerStr (trimStr contentType)
  let ct := if ct = "" then "application/json" else ct
  if strContainsSub ct "application/json" then .ok ()
  else .error "unsupported media type"

/-- common.ParseRequestBody: detect the protocol from the content type,
then decode a non-empty body.  `bodyLen` is the length of the read body and
`decodeResult` the outcome of encoder.Decode on it (`none` = success).  The
result is the returned error (`none` = nil). -/
def parseRequestBody (contentType : String) (bodyLen : Nat)
    (decodeResult : Option String) : Option String :=
  match detectProtocol contentType with
  | .error e => some ("unsupported media type: " ++ e)
  | .ok _ =>
      if bodyLen > 0 then
        match decodeResult with
        | some e => some ("invalid request body: " ++ e)
        | none => none
      else none

/-- Handler.CreateSession (REST): the HTTP status written for a POST, as a
function of body parsing and of the controller CreateSession outcome
(`createResult`, carrying the new session ID on success).  A
ParseRequestBody failure of any kind is written with StatusBadRequest. -/
def createSessionStatus (contentType : String) (bodyLen : Nat)
    (decodeResult : Option String) (createResult : Except String String) : Int :=
  match parseRequestBody contentType bodyLen decodeResult with
  | some _ => 400
  | none =>
      match createResult with
      | .error _ => 500
      | .ok _ => 201

theorem eraseSession_of_notFound (sm : SessionMap) (k : String)
    (h : findSession sm k = none) : eraseSession sm k = sm := by
  induction sm with
  | nil => rfl
  | cons p rest ih =>
      obtain ⟨key, s⟩ := p
      unfold findSession at h
      by_cases hk : key = k
      · simp [hk] at h
      · simp only [if_neg hk] at h
        unfold eraseSession at ih ⊢
        rw [List.filter_cons_of_pos, ih h]
        simp [hk]

theorem findSession_append_self (sm : SessionMap) (k : String) (v : EngineSession)
    (h : findSession sm k = none) : findSession (sm ++ [(k, v)]) k = some v := by
  induction sm with
  | nil => simp [findSession]
  | cons p rest ih =>
      obtain ⟨key, s⟩ := p
      rw [List.cons_append]
      unfold findSession at h ⊢
      by_cases hk : key = k
      · simp [hk] at h
      · simp only [if_neg hk] at h ⊢
        exact ih h

theorem eraseSession_append_self (sm : SessionMap) (k : String) (v : EngineSession)
    (h : findSession sm k = none) : eraseSession (sm ++ [(k, v)]) k = sm := by
  have h1 := eraseSession_of_notFound sm k h
  unfold eraseSession at h1 ⊢
  rw [List.filter_append, h1]
  simp

/-- Claim C1: for a session ID already present in the registry, a create
call — with or without a config — fails with the already-exists error and
hands back the registry map unchanged, the original entry still
registered. -/
theorem claim_C1 (eng : Engine) (gen sid : String) (sm : SessionMap)
    (s : EngineSession) (cfg : Option SessionConfig)
    (hne : sid ≠ "") (hreg : findSession sm sid = some s) :
    createSession gen sm sid =
      (.error ("session with ID " ++ sid ++ " already exists"), sm)
    ∧ createSessionWithConfig eng gen sm sid cfg =
      (.error ("session with ID " ++ sid ++ " already exists"), sm)
    ∧ findSession (createSession gen sm sid).2 sid = some s := by
  unfold createSession createSessionWithConfig
  simp [hne, hreg]

theorem claim_C1_witness :
    (("abc" : String) ≠ ""
      ∧ findSession [("abc", ({} : EngineSession))] "abc" = some {})
    ∧ (createSession "gen" [("abc", ({} : EngineSession))] "abc" =
        (.error ("session with ID " ++ "abc" ++ " already exists"),
          [("abc", ({} : EngineSession))])
      ∧ createSessionWithConfig idEngine "gen" [("abc", ({} : EngineSession))] "abc" none =
        (.error ("session with ID " ++ "abc" ++ " already exists"),
          [("abc", ({} : EngineSession))])
      ∧ findSession (createSession "gen" [("abc", ({} : EngineSession))] "abc").2 "abc" =
        some {}) :=
  ⟨⟨by decide, by decide⟩,
    claim_C1 idEngine "gen" "abc" [("abc", {})] {} none (by decide) (by decide)⟩

/-- Claim C8: deleting a session ID that is not in the registry fails with
the not-found error and leaves the registry map — in particular its size —
exactly as before. -/
theorem claim_C8 (sm : SessionMap) (sid : String)
    (h : findSession sm sid = none) :
    deleteSession sm sid = (some ("session with ID " ++ sid ++ " not found"), sm)
    ∧ (deleteSession sm sid).2.length = sm.length := by
  unfold deleteSession
  simp [h]

theorem claim_C8_witness :
    findSession [("abc", ({} : EngineSession))] "zzz" = none
    ∧ (deleteSession [("abc", ({} : EngineSession))] "zzz" =
        (some ("session with ID " ++ "zzz" ++ " not found"),
          [("abc", ({} : EngineSession))])
      ∧ (deleteSession [("abc", ({} : EngineSession))] "zzz").2.length =
        [("abc", ({} : EngineSession))].length) :=
  ⟨by decide, claim_C8 [("abc", {})] "zzz" (by decide)⟩

/-- Claim C4: a stateless request leaves the session registry exactly as it
found it — the temporary session is reclaimed by the deferred delete
whether execution succeeds or fails — and when creating the temporary
session itself fails, the error field of the response names that failure. -/
theorem claim_C4 (eng : Engine) (tempID : String) (sm : SessionMap)
    (serverReq : ServerRequest) :
    (executeStatelessRequest eng tempID sm serverReq).2 = sm
    ∧ (findSession sm tempID ≠ none →
        (executeStatelessRequest eng tempID sm serverReq).1.error =
          "Failed to create temporary session: " ++
            ("session with ID " ++ tempID ++ " already exists")) := by
  unfold executeStatelessRequest createSession
  rcases hfind : findSession sm tempID with _ | s
  · simp only [ite_self, hfind]
    constructor
    · show (deleteSession (sm ++ [(tempID, {})]) tempID).2 = sm
      unfold deleteSession
      rw [findSession_append_self sm tempID {} hfind]
      exact eraseSession_append_self sm tempID {} hfind
    · intro hcontra
      exact absurd rfl hcontra
  · simp [ite_self, hfind]

theorem claim_C4_witness :
    (executeStatelessRequest idEngine "tmp" [("abc", ({} : EngineSession))] {}).2 =
      [("abc", ({} : EngineSession))]
    ∧ (findSession [("abc", ({} : EngineSession))] "abc" ≠ none
      ∧ (executeStatelessRequest idEngine "abc" [("abc", ({} : EngineSession))] {}).1.error =
          "Failed to create temporary session: " ++
            ("session with ID " ++ "abc" ++ " already exists")) :=
  ⟨(claim_C4 idEngine "tmp" [("abc", {})] {}).1,
    by decide,
    (claim_C4 idEngine "abc" [("abc", {})] {}).2 (by decide)⟩

/-- Claim C5: the same-site field of the normalized response cookie is Default,
Lax, Strict, None for the engine codes 1, 2, 3, 4 respectively and the
empty string for every other code, always one of those five values, with
the mapping total (no panic). -/
theorem claim_C5 (c : EngineCookie) :
    (normalizeCookie c).sameSite =
      (if c.sameSite = 1 then "Default"
       else if c.sameSite = 2 then "Lax"
       else if c.sameSite = 3 then "Strict"
       else if c.sameSite = 4 then "None"
       else "")
    ∧ (normalizeCookie c).sameSite ∈ ["Default", "Lax", "Strict", "None", ""] := by
  have hmain : (normalizeCookie c).sameSite =
      (if c.sameSite = 1 then "Default"
       else if c.sameSite = 2 then "Lax"
       else if c.sameSite = 3 then "Strict"
       else if c.sameSite = 4 then "None"
       else "") := by
    unfold normalizeCookie
    split <;> simp_all
  refine ⟨hmain, ?_⟩
  rw [hmain]
  split <;> simp_all
  split <;> simp_all
  split <;> simp_all
  split <;> simp_all

/-- Claim C7: a logical request carrying both the text body and the base64
body is answered by the mutual-exclusion error, for every engine — so the
execution engine is never consulted. -/
theorem claim_C7 (eng : Engine) (session : EngineSession) (serverReq : ServerRequest)
    (hb : serverReq.body ≠ "") (hb64 : serverReq.bodyB64 ≠ none) :
    executeRequestWithSession eng session serverReq =
      { id := serverReq.id, error := "Both `body` and `body_b64` cannot be set" } := by
  unfold executeRequestWithSession
  simp [hb, hb64]

theorem claim_C7_witness :
    (({ body := "x", bodyB64 := some [1] } : ServerRequest).body ≠ ""
      ∧ ({ body := "x", bodyB64 := some [1] } : ServerRequest).bodyB64 ≠ none)
    ∧ executeRequestWithSession idEngine {} { body := "x", bodyB64 := some [1] } =
        { id := "", error := "Both `body` and `body_b64` cannot be set" } :=
  ⟨⟨by decide, by decide⟩, claim_C7 idEngine {} _ (by decide) (by decide)⟩

/-- Claim C2: a WebSocket request message handled on a connection with no
bound session always produces an error-type reply carrying the inbound
correlation ID — never a response-type reply. -/
theorem claim_C2 (eng : Engine) (sm : SessionMap) (msgID : String)
    (decoded : Except String ServerRequest) :
    ∃ e, handleRequestMessage eng sm "" msgID decoded = .errorReply msgID e := by
  cases decoded with
  | error e => exact ⟨"Invalid request payload: " ++ e, rfl⟩
  | ok sr0 => exact ⟨"session ID required", rfl⟩

/-- Claim C3: the wrapped handler runs exactly when fewer than the
configured capacity of tokens are held; a saturated limiter yields an
immediate 429 with an error-bearing JSON body, without invoking the
handler; the token count after the request equals the count before it on
every path. -/
theorem claim_C3 (maxConcurrent held : Nat) (nextStatus : Int)
    (nextBody requestID : String) :
    ((concurrentRequestLimiter maxConcurrent held nextStatus nextBody requestID).invoked =
        true ↔ held < maxConcurrent)
    ∧ (concurrentRequestLimiter maxConcurrent held nextStatus nextBody requestID).heldAfter =
        held
    ∧ (held < maxConcurrent →
        concurrentRequestLimiter maxConcurrent held nextStatus nextBody requestID =
          { status := nextStatus, body := nextBody, invoked := true,
            heldDuring := held + 1, heldAfter := held })
    ∧ (¬ held < maxConcurrent →
        concurrentRequestLimiter maxConcurrent held nextStatus nextBody requestID =
          { status := 429,
            body := "\x7b\"error\":\"Too many concurrent requests\",\"request_id\":\""
              ++ requestID ++ "\"\x7d",
            invoked := false, heldDuring := held, heldAfter := held }) := by
  unfold concurrentRequestLimiter
  by_cases h : held < maxConcurrent <;> simp [h]

theorem claim_C3_witness :
    ¬ 1 < 1
    ∧ concurrentRequestLimiter 1 1 200 "ok" "rid" =
      { status := 429,
        body := "\x7b\"error\":\"Too many concurrent requests\",\"request_id\":\""
          ++ "rid" ++ "\"\x7d",
        invoked := false, heldDuring := 1, heldAfter := 1 } :=
  ⟨by decide, (claim_C3 1 1 200 "ok" "rid").2.2.2 (by decide)⟩

/-- Claim C9: Close is idempotent: the first call returns the socket-close
result after setting the closed flag, closing the close channel, and
closing the socket; a second call returns nil and leaves the state — flag,
channel, socket — untouched. -/
theorem claim_C9 (c : WSConnState) (e1 e2 : Option String) (h : c.closed = false) :
    (closeConn e1 c).1 = e1
    ∧ (closeConn e1 c).2.closed = true
    ∧ (closeConn e1 c).2.closeChanClosed = true
    ∧ (closeConn e1 c).2.socketClosed = true
    ∧ closeConn e2 (closeConn e1 c).2 = (none, (closeConn e1 c).2) := by
  unfold closeConn
  simp [h]

theorem claim_C9_witness :
    ({} : WSConnState).closed = false
    ∧ ((closeConn (some "boom") {}).1 = some "boom"
      ∧ (closeConn (some "boom") {}).2.closed = true
      ∧ (closeConn (some "boom") {}).2.closeChanClosed = true
      ∧ (closeConn (some "boom") {}).2.socketClosed = true
      ∧ closeConn none (closeConn (some "boom") {}).2 =
          (none, (closeConn (some "boom") {}).2)) :=
  ⟨by decide, claim_C9 {} (some "boom") none (by decide)⟩

/-- Claim C10: once the closed flag is set — in particular after Close has
completed — every WriteJSON call returns the close-sent error and performs
no socket operation: no write deadline, no frame write. -/
theorem claim_C10 (c : WSConnState) (writeResult sockErr : Option String)
    (h : c.closed = true) :
    writeJSON c writeResult = (some errCloseSent, [])
    ∧ writeJSON (closeConn sockErr c).2 writeResult = (some errCloseSent, []) := by
  unfold writeJSON closeConn
  simp [h]

theorem claim_C10_witness :
    ({ closed := true } : WSConnState).closed = true
    ∧ (writeJSON { closed := true } none = (some errCloseSent, [])
      ∧ writeJSON (closeConn (some "x") { closed := true }).2 none =
          (some errCloseSent, [])) :=
  ⟨by decide, claim_C10 { closed := true } none (some "x") (by decide)⟩

/-- Claim C6 (code evaluation): a create-session POST whose Content-Type is
text/xml — non-empty and not JSON — is answered with HTTP status 400, not
the 415 the documentation promises: the unsupported-media-type failure of
ParseRequestBody is written with StatusBadRequest. -/
theorem claim_C6_eval :
    createSessionStatus "text/xml" 2 none (.ok "sid") = 400
    ∧ createSessionStatus "text/xml" 2 none (.ok "sid") ≠ 415 := by
  constructor <;> decide

end AzureApi
